import Mathlib

/-!
Verification of `q_dms_ttr_paper` (data_processing.py, plotting.py).

The tabular data (pandas DataFrame) is embedded as a `List Row`; reactivity
values are rationals; Python exceptions are `Except String`.  External
library calls (seq_tools, rna_secstruct, the curve fitter) are either
modelled from the spec's description of their contract or passed in as
oracle parameters, as noted on each definition.
-/

namespace QDms

/-- Python list slice `x[a:b]` with `0 ≤ a ≤ b`. -/
def pySlice (x : List α) (a b : Nat) : List α := (x.take b).drop a

/-- Python list slice `x[:-e]`.  Python's `-0` is `0`, so `x[:-0]` is `x[:0] = []`,
not the whole list: this quirk is load-bearing for `trim`. -/
def pySliceDropLast (x : List α) (e : Nat) : List α :=
  if e = 0 then [] else x.take (x.length - e)

/-- Python list slice `x[s:-e]` for `e ≥ 1` (the only use in the source). -/
def pySliceMid (x : List α) (s e : Nat) : List α :=
  (x.take (x.length - e)).drop s

/-- One row of a reactivity table.  The dot-bracket column is called
`structure` in the source; that word is a Lean keyword, so the field is
`struct` here. -/
structure Row where
  name : String
  run_name : String
  exp_name : String
  rna_name : String
  sequence : List Char
  struct : List Char
  data : List ℚ
  mg_conc : ℚ
deriving DecidableEq

/-- Modelled from the spec: the external `seq_tools.trim` removes `s`
nucleotides from the front and `e` from the back of the `sequence` and
`structure` columns of every row (the repository's own `trim` handles the
`data` column itself, see below). -/
def seq_ss_trim (df : List Row) (s e : Nat) : List Row :=
  df.map (fun r =>
    { r with
      sequence := (r.sequence.take (r.sequence.length - e)).drop s
      struct := (r.struct.take (r.struct.length - e)).drop s })

/-- The `data`-column branch of `trim` (data_processing.py lines 42-49),
with the source's branch order kept: `if start == 0` fires before the
`start == 0 and end == 0` branch, which is therefore unreachable. -/
def trimDataCol (s e : Nat) (x : List ℚ) : List ℚ :=
  if s = 0 then pySliceDropLast x e
  else if e = 0 then x.drop s
  else if s = 0 ∧ e = 0 then x
  else pySliceMid x s e

/-- `trim` (data_processing.py lines 33-50): external sequence/structure trim
followed by the in-repo `data` trim. -/
def trim (df : List Row) (s e : Nat) : List Row :=
  (seq_ss_trim df s e).map (fun r => { r with data := trimDataCol s e r.data })

/-- Modelled from the spec: `to_rna` normalizes a sequence to the RNA
alphabet (DNA `T` becomes `U`). -/
def to_rna_seq (sq : List Char) : List Char :=
  sq.map (fun c => if c = 'T' then 'U' else c)

/-- Modelled from the spec: `to_rna` applied to a table normalizes every
row's sequence. -/
def to_rna (df : List Row) : List Row :=
  df.map (fun r => { r with sequence := to_rna_seq r.sequence })

/-- Modelled from the spec: `has_5p_sequence df p5` holds when `p5` is a
5-prime prefix of every row's sequence. -/
def has_5p_sequence (df : List Row) (p5 : List Char) : Bool :=
  df.all (fun r => p5.isPrefixOf r.sequence)

/-- `trim_p5_and_p3` (data_processing.py lines 53-68).  The p5 reference
table, read from a bundled csv in the source, is passed as a parameter;
the loop keeps overwriting `common_p5_seq`, so the last candidate that is a
common 5-prime sequence wins. -/
def trim_p5_and_p3 (p5_table : List (List Char)) (df : List Row) :
    Except String (List Row) :=
  let df_p5 := p5_table.map to_rna_seq
  let common_p5_seq :=
    df_p5.foldl (fun common p5 => if has_5p_sequence df p5 then p5 else common) []
  if common_p5_seq.length = 0 then .error "No common p5 sequence found"
  else .ok (trim df common_p5_seq.length 20)

/-- The loop body of `find_stretches` (plotting.py lines 35-42): `start`
and `e` are the current run's bounds, `stretches` the accumulator. -/
def stretchLoop (start e : ℤ) (stretches : List (ℤ × ℤ)) :
    List ℤ → List (ℤ × ℤ)
  | [] => stretches ++ [(start, e)]
  | n :: rest =>
    if n = e + 1 then stretchLoop start n stretches rest
    else stretchLoop n n (stretches ++ [(start, e)]) rest

/-- `find_stretches` (plotting.py lines 25-43).  The in-place `nums.sort()`
is made explicit: the first component of the result is the caller's list
object after the call.  On an empty input the source raises IndexError at
`nums[0]`, modelled as `none`. -/
def find_stretches (nums : List ℤ) : Option (List ℤ × List (ℤ × ℤ)) :=
  match nums.mergeSort (fun a b => decide (a ≤ b)) with
  | [] => none
  | n0 :: rest => some (n0 :: rest, stretchLoop n0 n0 [] rest)

/-- Sequential row processing with Python exception semantics: the first
row that raises aborts the whole call, earlier results are discarded. -/
def forRows (f : Row → Except String α) : List Row → Except String (List α)
  | [] => .ok []
  | r :: rest => do
    let x ← f r
    let xs ← forRows f rest
    .ok (x :: xs)

/-- A sequence/structure fragment (external `SequenceStructure`). -/
structure SequenceStructure where
  sequence : List Char
  struct : List Char
deriving DecidableEq

/-- Search parameters of the external motif search (`MotifSearchParams`):
only the fields this pipeline reads are kept. -/
structure MotifSearchParams where
  sequence : List Char
  struct : List Char
deriving DecidableEq

/-- A motif returned by the external `SecStruct.get_motifs`: an ordered
list of strands, each an ordered list of positions into the row's data. -/
structure Motif where
  strands : List (List Nat)
deriving DecidableEq

/-- `get_dms_reactivity_for_motif` (data_processing.py lines 71-91).  The
external motif search is the oracle parameter `getMotifs`; out-of-range
data indices (impossible for real search results) default to 0. -/
def get_dms_reactivity_for_motif
    (getMotifs : SequenceStructure → MotifSearchParams → List Motif)
    (df : List Row) (params : MotifSearchParams) (error : Bool) :
    Except String (List (List ℚ)) :=
  let data_len := params.sequence.length - params.sequence.count '&'
  forRows (fun row =>
    let motifs := getMotifs ⟨row.sequence, row.struct⟩ params
    if motifs.length ≠ 1 ∧ error then .error "More than one motif found"
    else if motifs.length = 0 then .ok (List.replicate data_len (-1))
    else .ok ((motifs.headD ⟨[]⟩).strands.flatten.map
      (fun e => row.data.getD e 0))) df

/-- `get_dms_reactivity_for_sub_structure` (data_processing.py lines
94-128).  The external `seq_tools.structure.find` is the oracle parameter
`find`: it returns, per match, one half-open `(lo, hi)` bound per strand. -/
def get_dms_reactivity_for_sub_structure
    (find : SequenceStructure → SequenceStructure → Option Nat → Option Nat →
      List (List (Nat × Nat)))
    (df : List Row) (sub_seq_struct : SequenceStructure)
    (start stop : Option Nat) (error : Bool) :
    Except String (List (List ℚ)) :=
  let data_len := sub_seq_struct.sequence.length - sub_seq_struct.sequence.count '&'
  forRows (fun row =>
    let r := find ⟨row.sequence, row.struct⟩ sub_seq_struct start stop
    if r.length = 0 ∧ error then
      .error ("Could not find seq:" ++ String.mk sub_seq_struct.sequence ++
        " ss:" ++ String.mk sub_seq_struct.struct ++ " in " ++ row.name)
    else if r.length = 0 then .ok (List.replicate data_len (-1))
    else if 1 < r.length then
      .error ("multiple copies of seq:" ++ String.mk sub_seq_struct.sequence ++
        " ss:" ++ String.mk sub_seq_struct.struct ++ " in " ++ row.name)
    else
      let bounds := r.headD []
      let pos := bounds.flatMap (fun b => List.range' b.1 (b.2 - b.1))
      .ok (pos.map (fun p => row.data.getD p 0))) df

/-- The fixed wild-type tetraloop-receptor fragment of
`get_dms_reactivity_for_wt_tlr` (data_processing.py line 134). -/
def wtTlrTarget : SequenceStructure :=
  ⟨"UAUGG&CCUAAG".toList, "(..((&))...)".toList⟩

/-- `get_dms_reactivity_for_wt_tlr` (data_processing.py lines 131-163): on
a unique match the second strand's data slice is placed before the
first's. -/
def get_dms_reactivity_for_wt_tlr
    (find : SequenceStructure → SequenceStructure → Option Nat → Option Nat →
      List (List (Nat × Nat)))
    (df : List Row) (start stop : Option Nat) (error : Bool) :
    Except String (List (List ℚ)) :=
  let m_ss := wtTlrTarget
  let data_len := m_ss.sequence.length - m_ss.sequence.count '&'
  forRows (fun row =>
    let r := find ⟨row.sequence, row.struct⟩ m_ss start stop
    if r.length = 0 ∧ error then
      .error ("Could not find the tetraloop receptor in " ++ row.name)
    else if r.length = 0 then .ok (List.replicate data_len (-1))
    else if 1 < r.length then
      .error ("multiple copies of the tetraloop receptor where found in " ++
        row.name)
    else
      let bounds := r.headD []
      let b1 := bounds.getD 1 (0, 0)
      let b0 := bounds.getD 0 (0, 0)
      .ok (pySlice row.data b1.1 b1.2 ++ pySlice row.data b0.1 b0.2)) df

/-- Python slice `x[2:-1]`. -/
def pySliceGaaa (x : List ℚ) : List ℚ := (x.take (x.length - 1)).drop 2

/-- `np.mean` on rationals; the empty-list case (NaN in numpy) degenerates
to 0 here and is never relied on. -/
def npMean (x : List ℚ) : ℚ := x.sum / x.length

/-- `get_gaaa_data` (data_processing.py lines 169-178): returns the two
columns it adds, `gaaa` and `gaaa_avg`. -/
def get_gaaa_data
    (find : SequenceStructure → SequenceStructure → Option Nat → Option Nat →
      List (List (Nat × Nat)))
    (df : List Row) (error : Bool) :
    Except String (List (List ℚ) × List ℚ) := do
  let gaaa ← get_dms_reactivity_for_sub_structure find df
    ⟨"GGAAAC".toList, "(....)".toList⟩ none none error
  .ok (gaaa, gaaa.map (fun x => npMean (pySliceGaaa x)))

/-- One row of the table consumed by `compute_all_mg_1_2`: the processed
TTR-mutant table restricted to the columns that function reads. -/
structure TitrationRow where
  name : String
  mg_conc : ℚ
  gaaa_avg : ℚ
deriving DecidableEq

/-- One row of the table produced by `compute_all_mg_1_2`. -/
structure MgFitRow where
  name : String
  num_points : Nat
  mg_1_2 : ℚ
  mg_1_2_err : ℚ
  n : ℚ
  n_err : ℚ
  a_0 : ℚ
  a_0_err : ℚ
deriving DecidableEq

/-- `compute_all_mg_1_2` (data_processing.py lines 538-559).  The external
curve fitter `compute_mg_1_2` is the oracle parameter `fit`, returning the
pair (fitted values, standard errors), each a 3-vector indexed as
(mg_1_2, n, a_0).  Pandas `groupby` iterates groups keyed by distinct
names; the group order (sorted in pandas) is not modelled, only the group
set, which the claims depend on. -/
def compute_all_mg_1_2 (fit : List ℚ → List ℚ → List ℚ × List ℚ)
    (df : List TitrationRow) : List MgFitRow :=
  let df2 := df.filter (fun r => r.mg_conc ≠ 5)
  let names := (df2.map (fun r => r.name)).dedup
  names.map (fun nm =>
    let g := df2.filter (fun r => r.name = nm)
    let r := fit (g.map (fun x => x.mg_conc)) (g.map (fun x => x.gaaa_avg))
    { name := nm
      num_points := g.length
      mg_1_2 := r.1.getD 0 0
      mg_1_2_err := r.2.getD 0 0
      n := r.1.getD 1 0
      n_err := r.2.getD 1 0
      a_0 := r.1.getD 2 0
      a_0_err := r.2.getD 2 0 })

/-- Python `round` to an integer: round half to even. -/
def pyRoundHalfEven (q : ℚ) : ℤ :=
  if q - ⌊q⌋ < 1/2 then ⌊q⌋
  else if 1/2 < q - ⌊q⌋ then ⌊q⌋ + 1
  else if ⌊q⌋ % 2 = 0 then ⌊q⌋ else ⌊q⌋ + 1

/-- Python `round(y, 5)`: round to 5 decimal places, ties to even. -/
def pyRound5 (q : ℚ) : ℚ := (pyRoundHalfEven (q * 100000) : ℚ) / 100000

/-- `TTRMutsDataProcessor.__get_duplicates` (data_processing.py lines
485-493): per (name, mg_conc) group, the group is offending when its
run_name values are not all identical.  Pandas iterates groups in sorted
key order; only the set of groups matters here, so the keys are the
deduplicated key list. -/
def get_duplicates (df : List Row) :
    List ((String × ℚ) × List String × List String) :=
  let keys := (df.map (fun r => (r.name, r.mg_conc))).dedup
  keys.filterMap (fun k =>
    let g := df.filter (fun r => r.name = k.1 ∧ r.mg_conc = k.2)
    let unique_runs := (g.map (fun r => r.run_name)).dedup
    let unique_rna := (g.map (fun r => r.rna_name)).dedup
    if unique_runs.length = 1 then none else some (k, unique_runs, unique_rna))

/-- The fixed filters of `TTRMutsDataProcessor.clean_data`
(data_processing.py lines 434-448): alphabet normalization, the
0.20-to-0.25 mg_conc fix, the name exclusions and the two specific
duplicate-row removals, in source order. -/
def ttr_preclean (df : List Row) : List Row :=
  let df1 := to_rna df
  let df2 := df1.map (fun r =>
    if r.mg_conc = 0.20 then { r with mg_conc := 0.25 } else r)
  let df3 := df2.filter (fun r =>
    r.name ∉ (["PurRe4L5", "PtrRe2L5", "PurRe2L4"] : List String))
  let df4 := df3.filter (fun r =>
    ¬(r.run_name = "2022_08_29_mtt6_seq" ∧
      r.rna_name = "mtt6_mutations_set_2_50mM-NaC_0.1-mM-Mg2+"))
  df4.filter (fun r =>
    ¬(r.run_name = "2022_08_29_mtt6_seq" ∧
      r.rna_name = "mtt6_mutations_set_1_50mM-NaC_5-mM-Mg2+"))

/-- `TTRMutsDataProcessor.clean_data` (data_processing.py lines 433-458).
The `exit()` hard stop after logging duplicates is modelled as `.error`
carrying the logged duplicate groups; on success the cleaned, rounded
table is returned. -/
def clean_data (df : List Row) :
    Except (List ((String × ℚ) × List String × List String)) (List Row) :=
  let df' := ttr_preclean df
  let duplicates := get_duplicates df'
  if 0 < duplicates.length then .error duplicates
  else .ok (df'.map (fun r => { r with data := r.data.map pyRound5 }))

/-- Decidable substring check on character lists (for reasoning about the
wording of error messages). -/
def containsSub (needle hay : List Char) : Bool :=
  (List.range (hay.length + 1)).any (fun i => needle.isPrefixOf (hay.drop i))

/-- Projection of an `Except` to a success flag. -/
def exceptOk : Except ε α → Bool
  | .ok _ => true
  | .error _ => false

/-- The (name, mg_conc) keys carried by a `clean_data` hard stop; empty on
success. -/
def errKeys : Except (List ((String × ℚ) × List String × List String)) (List Row) →
    List (String × ℚ)
  | .error d => d.map (fun t => t.1)
  | .ok _ => []

/-! Concrete tables and oracles used as witnesses and counterexamples. -/

/-- A three-nucleotide row with data [1, 2, 3]. -/
def rowA : Row :=
  ⟨"c1", "r1", "e1", "rn1", "ACG".toList, "...".toList, [1, 2, 3], 0⟩

/-- A row with data [10, 20, 30]. -/
def rowB : Row :=
  ⟨"c2", "r2", "e2", "rn2", "GGCC".toList, "(())".toList, [10, 20, 30], 0⟩

/-- A 12-nucleotide row for the tetraloop-receptor extractor. -/
def rowC : Row :=
  ⟨"c5", "r5", "e5", "rn5", "UAUGGAACCUAA".toList, "(..((.))...)".toList,
    [20, 21, 22, 23, 24, 25, 26, 27, 28, 29, 30, 31], 0⟩

/-- A 6-nucleotide row for the GAAA extractor. -/
def rowD : Row :=
  ⟨"c6", "r6", "e6", "rn6", "GGAAAC".toList, "(....)".toList,
    [1, 2, 3, 4, 5, 6], 0⟩

/-- Motif-search parameters used in concrete runs. -/
def paramsB : MotifSearchParams := ⟨"GC".toList, "()".toList⟩

/-- Oracle returning two motif matches for every row. -/
def gmTwo : SequenceStructure → MotifSearchParams → List Motif :=
  fun _ _ => [⟨[[0]]⟩, ⟨[[1]]⟩]

/-- Oracle returning no motif match. -/
def gmZero : SequenceStructure → MotifSearchParams → List Motif :=
  fun _ _ => []

/-- Oracle returning two substructure matches for every row. -/
def findTwo : SequenceStructure → SequenceStructure → Option Nat → Option Nat →
    List (List (Nat × Nat)) :=
  fun _ _ _ _ => [[(0, 1)], [(1, 2)]]

/-- Oracle returning no substructure match. -/
def findZero : SequenceStructure → SequenceStructure → Option Nat → Option Nat →
    List (List (Nat × Nat)) :=
  fun _ _ _ _ => []

/-- Oracle returning one two-strand match with bounds (0,5) and (6,11). -/
def findOne : SequenceStructure → SequenceStructure → Option Nat → Option Nat →
    List (List (Nat × Nat)) :=
  fun _ _ _ _ => [[(0, 5), (6, 11)]]

/-- Oracle returning one single-strand match with bounds (0,6). -/
def findSix : SequenceStructure → SequenceStructure → Option Nat → Option Nat →
    List (List (Nat × Nat)) :=
  fun _ _ _ _ => [[(0, 6)]]

/-- A sub-structure target used in concrete runs. -/
def subB : SequenceStructure := ⟨"GC".toList, "()".toList⟩

/-- A constant curve-fit oracle with recognizable parameter values. -/
def fitW : List ℚ → List ℚ → List ℚ × List ℚ :=
  fun _ _ => ([1, 2, 3], [4, 5, 6])

/-- A titration table with one construct, one outlier row at mg_conc 5 and
two retained points. -/
def dfTitr : List TitrationRow :=
  [⟨"c", 5, 0⟩, ⟨"c", 1, 2⟩, ⟨"c", 2, 3⟩]

/-- The expected fit-result row for `dfTitr` under `fitW`. -/
def outTitr : MgFitRow := ⟨"c", 2, 1, 4, 2, 5, 3, 6⟩

/-- A p5 reference table in which both adapters are common 5-prime
sequences of `dfP5`; the second (last) one must win. -/
def p5tab : List (List Char) := ["A".toList, "AA".toList]

/-- A one-row table whose sequence starts with both `p5tab` adapters. -/
def dfP5 : List Row :=
  [⟨"c10", "r10", "e10", "rn10", "AAGGCCUU".toList, "((....))".toList,
    [1, 2, 3, 4, 5, 6, 7, 8], 0⟩]

/-- Two rows sharing (name, mg_conc) but with different run_name values:
an offending duplicate group for `clean_data`. -/
def dfDup : List Row :=
  [⟨"k", "run_a", "e", "rna_a", "ACG".toList, "...".toList, [1], 1⟩,
   ⟨"k", "run_b", "e", "rna_b", "ACG".toList, "...".toList, [2], 1⟩]

/-! Helper lemmas. -/

theorem forRows_singleton_error (f : Row → Except String α) (r : Row) (e : String)
    (h : f r = .error e) : forRows f [r] = .error e := by
  simp [forRows, h, Bind.bind, Except.bind]

theorem forRows_singleton_ok (f : Row → Except String α) (r : Row) (x : α)
    (h : f r = .ok x) : forRows f [r] = .ok [x] := by
  simp [forRows, h, Bind.bind, Except.bind]

theorem exceptOk_forRows_singleton (f : Row → Except String α) (r : Row) :
    exceptOk (forRows f [r]) = exceptOk (f r) := by
  cases h : f r <;> simp [forRows, h, Bind.bind, Except.bind, exceptOk]

/-! Claim theorems. -/

/-- C1: the spec says trimming with start s and end e keeps fields
co-indexed and in particular is a no-op at s = 0, e = 0; the code's
`x[:-end]` branch fires at (0, 0) and empties the data column (the
`start == 0 and end == 0` branch is unreachable), contradicting the
code's own dead branch and the spec.  Concretely: at (0, 0) the sequence
keeps its 3 nucleotides but the data column becomes empty. -/
theorem trim_zero_zero_empties_data :
    (trim [rowA] 0 0).map Row.data = [[]] ∧
    (trim [rowA] 0 0).map Row.sequence = ["ACG".toList] ∧
    (trim [rowA] 0 0).map Row.struct = ["...".toList] := by
  refine ⟨rfl, rfl, rfl⟩

/-- C2 counterexample: with strict mode off and two motif matches,
`get_dms_reactivity_for_motif` does not fail: it silently extracts from
the first match, refuting "always fails regardless of strict mode". -/
theorem motif_ambiguity_not_fatal_nonstrict :
    get_dms_reactivity_for_motif gmTwo [rowB] paramsB false = .ok [[10]] := by
  rfl

/-- C2 (amended): more than one match is always fatal for
`get_dms_reactivity_for_sub_structure` and
`get_dms_reactivity_for_wt_tlr`, in strict and non-strict mode alike; for
`get_dms_reactivity_for_motif` it is fatal only in strict mode
(error = true); with strict mode off that function silently uses the
first match. -/
theorem ambiguity_fatal_policy :
    (∀ find sub start stop (error : Bool) (row : Row),
      1 < (find ⟨row.sequence, row.struct⟩ sub start stop).length →
      exceptOk (get_dms_reactivity_for_sub_structure find [row] sub start stop error)
        = false) ∧
    (∀ find start stop (error : Bool) (row : Row),
      1 < (find ⟨row.sequence, row.struct⟩ wtTlrTarget start stop).length →
      exceptOk (get_dms_reactivity_for_wt_tlr find [row] start stop error) = false) ∧
    (∀ getMotifs params (row : Row),
      1 < (getMotifs ⟨row.sequence, row.struct⟩ params).length →
      exceptOk (get_dms_reactivity_for_motif getMotifs [row] params true) = false) := by
  refine ⟨?_, ?_, ?_⟩
  · intro find sub start stop error row h
    have h0 : ¬(find ⟨row.sequence, row.struct⟩ sub start stop).length = 0 := by omega
    rw [get_dms_reactivity_for_sub_structure, exceptOk_forRows_singleton]
    simp [h0, h, exceptOk]
  · intro find start stop error row h
    have h0 : ¬(find ⟨row.sequence, row.struct⟩ wtTlrTarget start stop).length = 0 := by
      omega
    rw [get_dms_reactivity_for_wt_tlr, exceptOk_forRows_singleton]
    simp [h0, h, exceptOk]
  · intro getMotifs params row h
    have h1 : ¬(getMotifs ⟨row.sequence, row.struct⟩ params).length = 1 := by omega
    rw [get_dms_reactivity_for_motif, exceptOk_forRows_singleton]
    simp [h1, exceptOk]

theorem ambiguity_fatal_policy_witness :
    (1 < (findTwo ⟨rowB.sequence, rowB.struct⟩ subB none none).length ∧
      exceptOk (get_dms_reactivity_for_sub_structure findTwo [rowB] subB none none false)
        = false) ∧
    (1 < (findTwo ⟨rowB.sequence, rowB.struct⟩ wtTlrTarget none none).length ∧
      exceptOk (get_dms_reactivity_for_wt_tlr findTwo [rowB] none none false) = false) ∧
    (1 < (gmTwo ⟨rowB.sequence, rowB.struct⟩ paramsB).length ∧
      exceptOk (get_dms_reactivity_for_motif gmTwo [rowB] paramsB true) = false) :=
  ⟨⟨by decide, ambiguity_fatal_policy.1 findTwo subB none none false rowB (by decide)⟩,
   ⟨by decide, ambiguity_fatal_policy.2.1 findTwo none none false rowB (by decide)⟩,
   ⟨by decide, ambiguity_fatal_policy.2.2 gmTwo paramsB rowB (by decide)⟩⟩

/-- C3 counterexample: in strict mode with zero motif matches the call
does fail, but the raised message is the ambiguity wording "More than one
motif found" (the `len(motifs) != 1` check merges both cases), not a
motif-not-found message: "not found" does not occur in it. -/
theorem motif_zero_strict_wrong_message :
    get_dms_reactivity_for_motif gmZero [rowB] paramsB true
      = .error "More than one motif found" ∧
    containsSub "not found".toList "More than one motif found".toList = false := by
  refine ⟨rfl, rfl⟩

/-- C3 (amended): in strict mode a row with zero motif matches makes
`get_dms_reactivity_for_motif` fail, but with the literal message "More
than one motif found" rather than a descriptive motif-not-found error. -/
theorem motif_zero_strict_fails :
    ∀ getMotifs params (row : Row),
      (getMotifs ⟨row.sequence, row.struct⟩ params).length = 0 →
      get_dms_reactivity_for_motif getMotifs [row] params true
        = .error "More than one motif found" := by
  intro getMotifs params row h
  rw [get_dms_reactivity_for_motif]
  refine forRows_singleton_error _ _ _ ?_
  simp [h]

theorem motif_zero_strict_fails_witness :
    (gmZero ⟨rowB.sequence, rowB.struct⟩ paramsB).length = 0 ∧
    get_dms_reactivity_for_motif gmZero [rowB] paramsB true
      = .error "More than one motif found" :=
  ⟨by decide, motif_zero_strict_fails gmZero paramsB rowB (by decide)⟩

/-- C4: in non-strict mode a row whose target is not found contributes a
vector of -1 values whose length is the target's sequence length minus
its strand-separator count, for all three extraction functions (for the
fixed tetraloop-receptor target that count is 11). -/
theorem not_found_sentinel_vector :
    (∀ getMotifs params (row : Row),
      (getMotifs ⟨row.sequence, row.struct⟩ params).length = 0 →
      get_dms_reactivity_for_motif getMotifs [row] params false =
        .ok [List.replicate
          (params.sequence.length - params.sequence.count '&') (-1)]) ∧
    (∀ find sub start stop (row : Row),
      (find ⟨row.sequence, row.struct⟩ sub start stop).length = 0 →
      get_dms_reactivity_for_sub_structure find [row] sub start stop false =
        .ok [List.replicate
          (sub.sequence.length - sub.sequence.count '&') (-1)]) ∧
    (∀ find start stop (row : Row),
      (find ⟨row.sequence, row.struct⟩ wtTlrTarget start stop).length = 0 →
      get_dms_reactivity_for_wt_tlr find [row] start stop false =
        .ok [List.replicate 11 (-1)]) := by
  refine ⟨?_, ?_, ?_⟩
  · intro getMotifs params row h
    rw [get_dms_reactivity_for_motif]
    refine forRows_singleton_ok _ _ _ ?_
    simp [h]
  · intro find sub start stop row h
    rw [get_dms_reactivity_for_sub_structure]
    refine forRows_singleton_ok _ _ _ ?_
    simp [h]
  · intro find start stop row h
    rw [get_dms_reactivity_for_wt_tlr]
    refine forRows_singleton_ok _ _ _ ?_
    simp only [h]
    norm_num [wtTlrTarget]
    decide

theorem not_found_sentinel_vector_witness :
    ((gmZero ⟨rowB.sequence, rowB.struct⟩ paramsB).length = 0 ∧
      get_dms_reactivity_for_motif gmZero [rowB] paramsB false =
        .ok [List.replicate
          (paramsB.sequence.length - paramsB.sequence.count '&') (-1)]) ∧
    ((findZero ⟨rowB.sequence, rowB.struct⟩ subB none none).length = 0 ∧
      get_dms_reactivity_for_sub_structure findZero [rowB] subB none none false =
        .ok [List.replicate
          (subB.sequence.length - subB.sequence.count '&') (-1)]) ∧
    ((findZero ⟨rowB.sequence, rowB.struct⟩ wtTlrTarget none none).length = 0 ∧
      get_dms_reactivity_for_wt_tlr findZero [rowB] none none false =
        .ok [List.replicate 11 (-1)]) :=
  ⟨⟨by decide, not_found_sentinel_vector.1 gmZero paramsB rowB (by decide)⟩,
   ⟨by decide, not_found_sentinel_vector.2.1 findZero subB none none rowB (by decide)⟩,
   ⟨by decide, not_found_sentinel_vector.2.2 findZero none none rowB (by decide)⟩⟩

/-- C5: when the fixed tetraloop-receptor fragment matches exactly once,
with two strand bounds b0 then b1, the returned vector is the data over
the second strand's half-open bounds followed by the data over the first
strand's. -/
theorem wt_tlr_single_match_reorders
    (find : SequenceStructure → SequenceStructure → Option Nat → Option Nat →
      List (List (Nat × Nat)))
    (start stop : Option Nat) (error : Bool) (row : Row) (b0 b1 : Nat × Nat)
    (h : find ⟨row.sequence, row.struct⟩ wtTlrTarget start stop = [[b0, b1]]) :
    get_dms_reactivity_for_wt_tlr find [row] start stop error =
      .ok [pySlice row.data b1.1 b1.2 ++ pySlice row.data b0.1 b0.2] := by
  rw [get_dms_reactivity_for_wt_tlr]
  refine forRows_singleton_ok _ _ _ ?_
  simp [h]

theorem wt_tlr_single_match_reorders_witness :
    findOne ⟨rowC.sequence, rowC.struct⟩ wtTlrTarget none none = [[(0, 5), (6, 11)]] ∧
    get_dms_reactivity_for_wt_tlr findOne [rowC] none none true =
      .ok [pySlice rowC.data 6 11 ++ pySlice rowC.data 0 5] :=
  ⟨by decide,
   wt_tlr_single_match_reorders findOne none none true rowC (0, 5) (6, 11) (by decide)⟩

/-- C6: whenever `get_gaaa_data` succeeds, the stored `gaaa_avg` of a row
whose 6-element `gaaa` vector is [v0, v1, v2, v3, v4, v5] is the
arithmetic mean of v2, v3, v4 (the `x[2:-1]` slice). -/
theorem gaaa_avg_central_mean
    (find : SequenceStructure → SequenceStructure → Option Nat → Option Nat →
      List (List (Nat × Nat)))
    (df : List Row) (error : Bool) (g : List (List ℚ)) (a : List ℚ)
    (h : get_gaaa_data find df error = .ok (g, a))
    (i : Nat) (hi : i < g.length) (v0 v1 v2 v3 v4 v5 : ℚ)
    (hv : g.getD i [] = [v0, v1, v2, v3, v4, v5]) :
    a.getD i 0 = (v2 + v3 + v4) / 3 := by
  have ha : a = g.map (fun x => npMean (pySliceGaaa x)) := by
    rw [get_gaaa_data] at h
    cases hsub : get_dms_reactivity_for_sub_structure find df
        ⟨"GGAAAC".toList, "(....)".toList⟩ none none error with
    | error e =>
      rw [hsub] at h
      simp [Bind.bind, Except.bind] at h
    | ok gs =>
      rw [hsub] at h
      simp only [Bind.bind, Except.bind, Except.ok.injEq, Prod.mk.injEq] at h
      rcases h with ⟨hg, ha⟩
      rw [← ha, hg]
  have hlen : i < (g.map (fun x => npMean (pySliceGaaa x))).length := by simpa using hi
  have h1 : a.getD i 0 = npMean (pySliceGaaa (g.getD i [])) := by
    rw [ha, List.getD_eq_getElem _ _ hlen, List.getElem_map,
      List.getD_eq_getElem _ _ hi]
  rw [h1, hv]
  norm_num [npMean, pySliceGaaa]
  ring

theorem gaaa_avg_central_mean_witness :
    [npMean (pySliceGaaa [1, 2, 3, 4, 5, 6])].getD 0 0 = ((3 : ℚ) + 4 + 5) / 3 :=
  gaaa_avg_central_mean findSix [rowD] true [[1, 2, 3, 4, 5, 6]] _ (by rfl)
    0 (by decide) 1 2 3 4 5 6 (by rfl)

theorem stretchLoop_spec (M : List ℤ) (l : List ℤ) :
    ∀ (s e : ℤ) (acc : List (ℤ × ℤ)),
      s ≤ e → s ∈ M → e ∈ M → (∀ x ∈ l, x ∈ M) →
      (∀ p ∈ acc, p.1 ≤ p.2 ∧ p.1 ∈ M ∧ p.2 ∈ M) →
      ∀ p ∈ stretchLoop s e acc l, p.1 ≤ p.2 ∧ p.1 ∈ M ∧ p.2 ∈ M := by
  induction l with
  | nil =>
    intro s e acc hse hs he _ hacc p hp
    rw [stretchLoop] at hp
    rcases List.mem_append.1 hp with hmem | hmem
    · exact hacc p hmem
    · rw [List.mem_singleton] at hmem
      subst hmem
      exact ⟨hse, hs, he⟩
  | cons n rest ih =>
    intro s e acc hse hs he hl hacc p hp
    rw [stretchLoop] at hp
    by_cases hn : n = e + 1
    · rw [if_pos hn] at hp
      refine ih s n acc (by omega) hs (hl n (by simp))
        (fun x hx => hl x (by simp [hx])) hacc p hp
    · rw [if_neg hn] at hp
      refine ih n n (acc ++ [(s, e)]) le_rfl (hl n (by simp)) (hl n (by simp))
        (fun x hx => hl x (by simp [hx])) ?_ p hp
      intro q hq
      rcases List.mem_append.1 hq with hq | hq
      · exact hacc q hq
      · rw [List.mem_singleton] at hq
        subst hq
        exact ⟨hse, hs, he⟩

/-- C9: `find_stretches` mutates its argument: besides returning the
inclusive stretch pairs (each with start ≤ end and both endpoints taken
from the input), the caller's list is left sorted ascending, as a
permutation of the input. -/
theorem find_stretches_sorts_in_place (nums : List ℤ) (h : nums ≠ []) :
    ∃ out, find_stretches nums = some out ∧
      out.1.Perm nums ∧ out.1.Sorted (· ≤ ·) ∧
      ∀ p ∈ out.2, p.1 ≤ p.2 ∧ p.1 ∈ nums ∧ p.2 ∈ nums := by
  have hperm : (nums.mergeSort (fun a b => decide (a ≤ b))).Perm nums :=
    List.mergeSort_perm nums _
  have hsorted : List.Pairwise (fun a b : ℤ => (decide (a ≤ b)) = true)
      (nums.mergeSort (fun a b => decide (a ≤ b))) :=
    List.sorted_mergeSort
      (by intro a b c hab hbc; simp only [decide_eq_true_eq] at *; omega)
      (by intro a b; simp only [Bool.or_eq_true, decide_eq_true_eq]; exact le_total a b)
      nums
  cases hsort : nums.mergeSort (fun a b => decide (a ≤ b)) with
  | nil =>
    rw [hsort] at hperm
    exact absurd hperm.symm.eq_nil h
  | cons n0 rest =>
    rw [hsort] at hperm hsorted
    have hn0 : n0 ∈ nums := hperm.subset (List.mem_cons_self n0 rest)
    have hrest : ∀ x ∈ rest, x ∈ nums :=
      fun x hx => hperm.subset (List.mem_cons_of_mem n0 hx)
    refine ⟨(n0 :: rest, stretchLoop n0 n0 [] rest), ?_, hperm, ?_, ?_⟩
    · simp only [find_stretches, hsort]
    · exact hsorted.imp (fun hab => of_decide_eq_true hab)
    · intro p hp
      exact stretchLoop_spec nums rest n0 n0 [] le_rfl hn0 hn0 hrest (by simp) p hp

theorem find_stretches_sorts_in_place_witness :
    ([5, 6, 7, 10, 11, 20] : List ℤ) ≠ [] ∧
    ∃ out, find_stretches [5, 6, 7, 10, 11, 20] = some out ∧
      out.1.Perm [5, 6, 7, 10, 11, 20] ∧ out.1.Sorted (· ≤ ·) ∧
      ∀ p ∈ out.2, p.1 ≤ p.2 ∧ p.1 ∈ [5, 6, 7, 10, 11, 20] ∧
        p.2 ∈ [5, 6, 7, 10, 11, 20] :=
  ⟨by decide, find_stretches_sorts_in_place _ (by decide)⟩

theorem foldl_pick_getLastD (p : List Char → Bool) (l : List (List Char)) :
    ∀ acc : List Char,
      l.foldl (fun common s => if p s then s else common) acc =
        (l.filter p).getLastD acc := by
  induction l with
  | nil => intro acc; rfl
  | cons x xs ih =>
    intro acc
    rw [List.foldl_cons, ih]
    by_cases hx : p x
    · rw [if_pos hx, List.filter_cons_of_pos hx, List.getLastD_cons]
    · rw [if_neg hx, List.filter_cons_of_neg (by simpa using hx)]

/-- C10: when several adapters of the (RNA-normalized) p5 reference table
are common 5-prime sequences of the table, the overwriting loop makes the
last matching adapter the one whose length is trimmed; stated for any
table whose last matching adapter is nonempty. -/
theorem trim_p5_uses_last_match (p5_table : List (List Char)) (df : List Row)
    (h : ((p5_table.map to_rna_seq).filter (has_5p_sequence df)).getLastD [] ≠ []) :
    trim_p5_and_p3 p5_table df =
      .ok (trim df
        (((p5_table.map to_rna_seq).filter (has_5p_sequence df)).getLastD []).length
        20) := by
  have hlen :
      ¬(((p5_table.map to_rna_seq).filter (has_5p_sequence df)).getLastD []).length
        = 0 := by
    simpa [List.length_eq_zero] using h
  simp only [trim_p5_and_p3, foldl_pick_getLastD]
  rw [if_neg hlen]

theorem trim_p5_uses_last_match_witness :
    ((p5tab.map to_rna_seq).filter (has_5p_sequence dfP5)).getLastD [] ≠ [] ∧
    trim_p5_and_p3 p5tab dfP5 =
      .ok (trim dfP5
        (((p5tab.map to_rna_seq).filter (has_5p_sequence dfP5)).getLastD []).length
        20) :=
  ⟨by decide, trim_p5_uses_last_match p5tab dfP5 (by decide)⟩

theorem compute_all_filter_swap (df : List TitrationRow) (nm : String) :
    (df.filter (fun r => r.mg_conc ≠ 5)).filter (fun r => r.name = nm) =
      df.filter (fun r => r.name = nm ∧ r.mg_conc ≠ 5) := by
  rw [List.filter_filter]
  apply List.filter_congr
  intro r _
  by_cases h1 : r.name = nm <;> by_cases h2 : r.mg_conc = 5 <;> simp [h1, h2]

theorem compute_all_names (fit : List ℚ → List ℚ → List ℚ × List ℚ)
    (df : List TitrationRow) :
    (compute_all_mg_1_2 fit df).map MgFitRow.name =
      ((df.filter (fun r => r.mg_conc ≠ 5)).map TitrationRow.name).dedup := by
  simp only [compute_all_mg_1_2, List.map_map]
  exact List.map_id _

/-- C7: `compute_all_mg_1_2` drops every row whose mg_conc is exactly 5,
then emits exactly one result row per distinct remaining construct name,
with num_points the count of that name's retained rows and the six fit
fields taken positionally from the fitter's two 3-vectors. -/
theorem compute_all_mg_1_2_spec (fit : List ℚ → List ℚ → List ℚ × List ℚ)
    (df : List TitrationRow) :
    ((compute_all_mg_1_2 fit df).map MgFitRow.name).Nodup ∧
    (∀ nm : String,
      nm ∈ (compute_all_mg_1_2 fit df).map MgFitRow.name ↔
        ∃ r ∈ df, r.name = nm ∧ r.mg_conc ≠ 5) ∧
    (∀ out ∈ compute_all_mg_1_2 fit df,
      out.num_points =
        (df.filter (fun r => r.name = out.name ∧ r.mg_conc ≠ 5)).length ∧
      (let g := df.filter (fun r => r.name = out.name ∧ r.mg_conc ≠ 5)
       let r := fit (g.map TitrationRow.mg_conc) (g.map TitrationRow.gaaa_avg)
       out.mg_1_2 = r.1.getD 0 0 ∧ out.mg_1_2_err = r.2.getD 0 0 ∧
       out.n = r.1.getD 1 0 ∧ out.n_err = r.2.getD 1 0 ∧
       out.a_0 = r.1.getD 2 0 ∧ out.a_0_err = r.2.getD 2 0)) := by
  refine ⟨?_, ?_, ?_⟩
  · rw [compute_all_names]
    exact List.nodup_dedup _
  · intro nm
    rw [compute_all_names, List.mem_dedup]
    simp only [List.mem_map, List.mem_filter, decide_eq_true_eq]
    constructor
    · rintro ⟨r, ⟨hmem, hmg⟩, hname⟩
      exact ⟨r, hmem, hname, hmg⟩
    · rintro ⟨r, hmem, hname, hmg⟩
      exact ⟨r, ⟨hmem, hmg⟩, hname⟩
  · intro out hout
    simp only [compute_all_mg_1_2, List.mem_map] at hout
    rcases hout with ⟨nm, _, rfl⟩
    simp [compute_all_filter_swap]

theorem compute_all_mg_1_2_spec_witness :
    outTitr ∈ compute_all_mg_1_2 fitW dfTitr ∧
    (outTitr.num_points =
      (dfTitr.filter (fun r => r.name = outTitr.name ∧ r.mg_conc ≠ 5)).length ∧
     (let g := dfTitr.filter (fun r => r.name = outTitr.name ∧ r.mg_conc ≠ 5)
      let r := fitW (g.map TitrationRow.mg_conc) (g.map TitrationRow.gaaa_avg)
      outTitr.mg_1_2 = r.1.getD 0 0 ∧ outTitr.mg_1_2_err = r.2.getD 0 0 ∧
      outTitr.n = r.1.getD 1 0 ∧ outTitr.n_err = r.2.getD 1 0 ∧
      outTitr.a_0 = r.1.getD 2 0 ∧ outTitr.a_0_err = r.2.getD 2 0)) :=
  ⟨by decide, (compute_all_mg_1_2_spec fitW dfTitr).2.2 outTitr (by decide)⟩

theorem dedup_length_one_iff {α : Type} [DecidableEq α] (l : List α) :
    l.dedup.length = 1 ↔ l ≠ [] ∧ ∀ a ∈ l, ∀ b ∈ l, a = b := by
  constructor
  · intro h
    rcases List.length_eq_one.1 h with ⟨x, hx⟩
    have hmem : ∀ a ∈ l, a = x := by
      intro a ha
      have hd : a ∈ l.dedup := List.mem_dedup.2 ha
      rw [hx] at hd
      simpa using hd
    refine ⟨?_, ?_⟩
    · intro hnil
      rw [hnil] at hx
      simp at hx
    · intro a ha b hb
      rw [hmem a ha, hmem b hb]
  · rintro ⟨hne, hall⟩
    rcases List.exists_mem_of_ne_nil l hne with ⟨a, ha⟩
    cases hd : l.dedup with
    | nil =>
      exfalso
      have hmem := List.mem_dedup.2 ha
      rw [hd] at hmem
      simp at hmem
    | cons x t =>
      cases ht : t with
      | nil => rfl
      | cons y t2 =>
        exfalso
        have hnd := List.nodup_dedup l
        rw [hd, ht] at hnd
        have hx : x ∈ l := List.mem_dedup.1 (by rw [hd]; exact List.mem_cons_self _ _)
        have hy : y ∈ l := List.mem_dedup.1 (by rw [hd, ht]; simp)
        have hxy : x = y := hall x hx y hy
        rw [hxy] at hnd
        simp at hnd

theorem group_offending_iff (df : List Row) (nm : String) (mg : ℚ) :
    (((df.filter (fun r => r.name = nm ∧ r.mg_conc = mg)).map
        (fun r => r.run_name)).dedup.length ≠ 1 ∧
      (nm, mg) ∈ (df.map (fun r => (r.name, r.mg_conc))).dedup) ↔
    ∃ r1 ∈ df, ∃ r2 ∈ df,
      r1.name = nm ∧ r1.mg_conc = mg ∧ r2.name = nm ∧ r2.mg_conc = mg ∧
      r1.run_name ≠ r2.run_name := by
  constructor
  · rintro ⟨hne1, hkey⟩
    rw [List.mem_dedup, List.mem_map] at hkey
    rcases hkey with ⟨r0, hr0, hk0⟩
    rw [Prod.mk.injEq] at hk0
    have hr0g : r0 ∈ df.filter (fun r => r.name = nm ∧ r.mg_conc = mg) := by
      rw [List.mem_filter, decide_eq_true_eq]
      exact ⟨hr0, hk0⟩
    have hlne : ((df.filter (fun r => r.name = nm ∧ r.mg_conc = mg)).map
        (fun r => r.run_name)) ≠ [] := by
      intro hnil
      have hmem := List.mem_map_of_mem (fun r : Row => r.run_name) hr0g
      rw [hnil] at hmem
      simp at hmem
    have hno := (not_iff_not.2 (dedup_length_one_iff _)).1 hne1
    push_neg at hno
    rcases hno hlne with ⟨a, ha, b, hb, hab⟩
    rw [List.mem_map] at ha hb
    rcases ha with ⟨r1, hr1, rfl⟩
    rcases hb with ⟨r2, hr2, rfl⟩
    rw [List.mem_filter, decide_eq_true_eq] at hr1 hr2
    exact ⟨r1, hr1.1, r2, hr2.1, hr1.2.1, hr1.2.2, hr2.2.1, hr2.2.2, hab⟩
  · rintro ⟨r1, hr1, r2, hr2, hn1, hm1, hn2, hm2, hrr⟩
    have hg1 : r1 ∈ df.filter (fun r => r.name = nm ∧ r.mg_conc = mg) := by
      rw [List.mem_filter, decide_eq_true_eq]
      exact ⟨hr1, hn1, hm1⟩
    have hg2 : r2 ∈ df.filter (fun r => r.name = nm ∧ r.mg_conc = mg) := by
      rw [List.mem_filter, decide_eq_true_eq]
      exact ⟨hr2, hn2, hm2⟩
    refine ⟨?_, ?_⟩
    · intro hone
      rcases (dedup_length_one_iff _).1 hone with ⟨-, hall⟩
      exact hrr (hall _ (List.mem_map_of_mem _ hg1) _ (List.mem_map_of_mem _ hg2))
    · rw [List.mem_dedup, List.mem_map]
      exact ⟨r1, hr1, by rw [hn1, hm1]⟩

theorem mem_get_duplicates_keys (df : List Row) (nm : String) (mg : ℚ) :
    (nm, mg) ∈ (get_duplicates df).map (fun t => t.1) ↔
      (((df.filter (fun r => r.name = nm ∧ r.mg_conc = mg)).map
          (fun r => r.run_name)).dedup.length ≠ 1 ∧
        (nm, mg) ∈ (df.map (fun r => (r.name, r.mg_conc))).dedup) := by
  simp only [get_duplicates, List.mem_map, List.mem_filterMap]
  constructor
  · rintro ⟨t, ⟨k, hk, hft⟩, ht1⟩
    by_cases hone : ((df.filter (fun r => r.name = k.1 ∧ r.mg_conc = k.2)).map
        (fun r => r.run_name)).dedup.length = 1
    · rw [if_pos hone] at hft
      exact absurd hft (by simp)
    · rw [if_neg hone] at hft
      have hkt := Option.some.inj hft
      rcases hkt with rfl
      have hk2 : k = (nm, mg) := ht1
      subst hk2
      exact ⟨hone, hk⟩
  · rintro ⟨hone, hkey⟩
    have hne : ¬((df.filter (fun r => r.name = (nm, mg).1 ∧
        r.mg_conc = (nm, mg).2)).map (fun r => r.run_name)).dedup.length = 1 := hone
    exact ⟨((nm, mg),
        ((df.filter (fun r => r.name = (nm, mg).1 ∧ r.mg_conc = (nm, mg).2)).map
          (fun r => r.run_name)).dedup,
        ((df.filter (fun r => r.name = (nm, mg).1 ∧ r.mg_conc = (nm, mg).2)).map
          (fun r => r.rna_name)).dedup),
      ⟨(nm, mg), hkey, if_neg hne⟩, rfl⟩

theorem dup_keys_characterization (df : List Row) (nm : String) (mg : ℚ) :
    (nm, mg) ∈ (get_duplicates df).map (fun t => t.1) ↔
      ∃ r1 ∈ df, ∃ r2 ∈ df,
        r1.name = nm ∧ r1.mg_conc = mg ∧ r2.name = nm ∧ r2.mg_conc = mg ∧
        r1.run_name ≠ r2.run_name :=
  (mem_get_duplicates_keys df nm mg).trans (group_offending_iff df nm mg)

theorem errKeys_clean_data (df : List Row) :
    errKeys (clean_data df) = (get_duplicates (ttr_preclean df)).map (fun t => t.1) := by
  simp only [clean_data]
  by_cases h : 0 < (get_duplicates (ttr_preclean df)).length
  · rw [if_pos h]
    rfl
  · rw [if_neg h]
    have hnil : get_duplicates (ttr_preclean df) = [] := by
      rw [← List.length_eq_zero]
      omega
    rw [hnil]
    rfl

theorem clean_data_ok_iff (df : List Row) :
    exceptOk (clean_data df) = false ↔ get_duplicates (ttr_preclean df) ≠ [] := by
  simp only [clean_data]
  by_cases h : 0 < (get_duplicates (ttr_preclean df)).length
  · rw [if_pos h]
    have hne : get_duplicates (ttr_preclean df) ≠ [] := by
      intro hnil
      rw [hnil] at h
      simp at h
    simp [exceptOk, hne]
  · rw [if_neg h]
    have hnil : get_duplicates (ttr_preclean df) = [] := by
      rw [← List.length_eq_zero]
      omega
    simp [exceptOk, hnil]

/-- C8: after the fixed exclusions and duplicate-row removals,
`clean_data` hard-stops (produces no cleaned table) exactly when some
(name, mg_conc) group of the remaining rows carries more than one
distinct run_name, and the logged keys are exactly the offending
(name, mg_conc) groups; when no such group exists, cleaning completes. -/
theorem clean_data_duplicate_hard_stop (df : List Row) :
    (exceptOk (clean_data df) = false ↔
      ∃ r1 ∈ ttr_preclean df, ∃ r2 ∈ ttr_preclean df,
        r1.name = r2.name ∧ r1.mg_conc = r2.mg_conc ∧
        r1.run_name ≠ r2.run_name) ∧
    (∀ nm : String, ∀ mg : ℚ,
      (nm, mg) ∈ errKeys (clean_data df) ↔
        ∃ r1 ∈ ttr_preclean df, ∃ r2 ∈ ttr_preclean df,
          r1.name = nm ∧ r1.mg_conc = mg ∧ r2.name = nm ∧ r2.mg_conc = mg ∧
          r1.run_name ≠ r2.run_name) := by
  constructor
  · rw [clean_data_ok_iff]
    constructor
    · intro hne
      rcases List.exists_mem_of_ne_nil _ hne with ⟨t, ht⟩
      have hk : t.1 ∈ (get_duplicates (ttr_preclean df)).map (fun t => t.1) :=
        List.mem_map_of_mem _ ht
      obtain ⟨r1, h1, r2, h2, hn1, hm1, hn2, hm2, hrr⟩ :=
        (dup_keys_characterization (ttr_preclean df) t.1.1 t.1.2).1
          (by simpa [Prod.mk.eta] using hk)
      exact ⟨r1, h1, r2, h2, by rw [hn1, hn2], by rw [hm1, hm2], hrr⟩
    · rintro ⟨r1, h1, r2, h2, hnn, hmm, hrr⟩
      intro hnil
      have hmem : (r1.name, r1.mg_conc) ∈
          (get_duplicates (ttr_preclean df)).map (fun t => t.1) :=
        (dup_keys_characterization _ _ _).2
          ⟨r1, h1, r2, h2, rfl, rfl, hnn.symm, hmm.symm, hrr⟩
      rw [hnil] at hmem
      simp at hmem
  · intro nm mg
    rw [errKeys_clean_data]
    exact dup_keys_characterization _ _ _

end QDms
